import Mathlib

/-!
Shallow embedding of `autosub/api_google.py` and proofs about its
response-normalization, encoding-mapping and retry logic.

Modelling conventions:
* JSON values (the shapes produced by `json.loads` / `MessageToDict`) are the
  inductive type `Json`; Python `int` and `float` are both modelled as exact
  rationals (IEEE rounding is abstracted).
* Fallible Python expressions are `Except PyErr _`; the `PyErr` constructors
  mirror the Python exception classes that can be raised or caught in the
  source file.  `SpeechToTextException` (from the `autosub.exceptions` module,
  which is not part of the sources here) is modelled from the spec as the
  distinguished error constructor `PyErr.speechToText` carrying its message.
* The network transport (`requests.post`) and the vendor SDK are external
  collaborators: a call's transport is a function from attempt index to the
  attempt's outcome, where a successful response body is given by the outcome
  of decoding/parsing it (a `ValueError` from `json.loads` is `none`).
* File-system and network effects are recorded in an explicit event trace in
  the order the source performs them.
-/

set_option autoImplicit false

/-- A JSON value, as produced by `json.loads` (dicts keep insertion order,
modelled as association lists). -/
inductive Json where
  | null
  | bool (b : Bool)
  | num (q : ℚ)
  | str (s : String)
  | arr (elems : List Json)
  | obj (fields : List (String × Json))

/-- Python exceptions raised or caught in `api_google.py`. -/
inductive PyErr where
  | typeError
  | keyError
  | indexError
  | valueError
  | attributeError
  | nameError
  | speechToText (msg : String)
deriving DecidableEq

instance {ε α : Type} [DecidableEq ε] [DecidableEq α] : DecidableEq (Except ε α) := fun x y =>
  match x, y with
  | .ok a, .ok b => decidable_of_iff (a = b) (by simp)
  | .error a, .error b => decidable_of_iff (a = b) (by simp)
  | .ok _, .error _ => isFalse (by simp)
  | .error _, .ok _ => isFalse (by simp)

/-- Python truthiness of a JSON value (`if x:`). -/
def Json.truthy : Json → Bool
  | .null => false
  | .bool b => b
  | .num q => q != 0
  | .str s => !s.data.isEmpty
  | .arr xs => !xs.isEmpty
  | .obj fs => !fs.isEmpty

/-- Whether `needle` occurs as a contiguous run inside `hay`. -/
def charRunIn (hay needle : List Char) : Bool :=
  match hay with
  | [] => needle.isEmpty
  | _ :: t => needle.isPrefixOf hay || charRunIn t needle

/-- Substring containment, for Python `key in someString` (the empty string is
contained in every string). -/
def pyStrContains (s key : String) : Bool :=
  charRunIn s.data key.data

/-- Python membership `key in v` for a string key against a JSON value:
dict → key lookup, list → element equality with the string, str → substring;
other values are not containers and raise `TypeError`. -/
def pyContains (v : Json) (key : String) : Except PyErr Bool :=
  match v with
  | .obj fs => .ok (fs.lookup key).isSome
  | .arr xs => .ok (xs.any (fun x => match x with | .str s => s = key | _ => false))
  | .str s => .ok (pyStrContains s key)
  | _ => .error .typeError

/-- Python subscript `v[key]` with a string key: only dicts support it
(`KeyError` when absent); lists and strings need integer indices
(`TypeError`), and other values are not subscriptable (`TypeError`). -/
def pyGetItemS (v : Json) (key : String) : Except PyErr Json :=
  match v with
  | .obj fs =>
    match fs.lookup key with
    | some x => .ok x
    | none => .error .keyError
  | _ => .error .typeError

/-- Python subscript `v[n]` with a non-negative integer index: list element or
`IndexError`; string → one-character string or `IndexError`; dict → `KeyError`
(JSON object keys are strings); other values raise `TypeError`. -/
def pyIndex (v : Json) (n : Nat) : Except PyErr Json :=
  match v with
  | .arr xs =>
    match xs.get? n with
    | some x => .ok x
    | none => .error .indexError
  | .str s =>
    match s.data.get? n with
    | some c => .ok (.str (String.mk [c]))
    | none => .error .indexError
  | .obj _ => .error .keyError
  | _ => .error .typeError

/-- Digit run to a natural number. -/
def digitsToNat (cs : List Char) : Nat :=
  cs.foldl (fun a c => a * 10 + (c.toNat - 48)) 0

/-- Exponent suffix of a Python float literal: `e`/`E`, optional sign, at
least one digit; no suffix parses as exponent `0`. -/
def pyParseExp : List Char → Option (Int × List Char)
  | [] => some (0, [])
  | c :: t =>
    if c = 'e' ∨ c = 'E' then
      let (sgn, t') : Int × List Char :=
        match t with
        | '+' :: u => (1, u)
        | '-' :: u => (-1, u)
        | _ => (1, t)
      let ds := t'.takeWhile Char.isDigit
      if ds.isEmpty then none
      else some (sgn * (digitsToNat ds : Int), t'.dropWhile Char.isDigit)
    else some (0, c :: t)

/-- Python `float(string)`: optional surrounding whitespace, optional sign,
decimal digits with optional fraction and exponent, read as an exact rational
(IEEE rounding abstracted; `inf`/`nan`/underscore forms are not modelled and
parse as failures). -/
def pyParseFloat (s : String) : Option ℚ :=
  let cs := s.data.dropWhile Char.isWhitespace
  let (sgn, cs) : ℚ × List Char :=
    match cs with
    | '+' :: t => (1, t)
    | '-' :: t => (-1, t)
    | _ => (1, cs)
  let ip := cs.takeWhile Char.isDigit
  let cs := cs.dropWhile Char.isDigit
  let (fq, flen, cs) : ℚ × Nat × List Char :=
    match cs with
    | '.' :: t =>
      let fd := t.takeWhile Char.isDigit
      ((digitsToNat fd : ℚ) / ((10 : ℚ) ^ fd.length), fd.length, t.dropWhile Char.isDigit)
    | _ => (0, 0, cs)
  if ip.isEmpty ∧ flen = 0 then none
  else
    match pyParseExp cs with
    | none => none
    | some (e, rest) =>
      if rest.dropWhile Char.isWhitespace = [] then
        some (sgn * ((digitsToNat ip : ℚ) + fq) * (10 : ℚ) ^ e)
      else none

/-- Python `float(v)` on a JSON value: numbers are themselves, booleans are
`1`/`0`, strings are parsed (`ValueError` on failure), anything else raises
`TypeError`. -/
def pyFloat (v : Json) : Except PyErr ℚ :=
  match v with
  | .num q => .ok q
  | .bool b => .ok (if b then 1 else 0)
  | .str s =>
    match pyParseFloat s with
    | some q => .ok q
    | none => .error .valueError
  | _ => .error .typeError

/-- U+2019 right single quotation mark. -/
def rightSingleQuote : Char := Char.ofNat 8217

/-- ASCII apostrophe U+0027. -/
def asciiApostrophe : Char := Char.ofNat 39

/-- `text[:1].upper() + text[1:]` — upper-case the first character (Python's
full-Unicode `str.upper` is modelled by ASCII `Char.toUpper`). -/
def pyCapFirst (s : String) : String :=
  match s.data with
  | [] => ""
  | c :: cs => String.mk (c.toUpper :: cs)

/-- The post-processing applied to every returned transcript: capitalize the
first character, then replace every U+2019 with an ASCII apostrophe
(source lines 129–130, 136–137, 170–171, 178–179). -/
def googlePostProcess (s : String) : String :=
  String.mk ((pyCapFirst s).data.map
    (fun c => if c = rightSingleQuote then asciiApostrophe else c))

/-- `text[:1].upper() + text[1:]` then `.replace(…)` applied to an arbitrary
JSON value: works on strings; slicing a list yields a list whose `.upper`
raises `AttributeError`; other values do not support slicing (`TypeError`). -/
def pyCapReplace (v : Json) : Except PyErr String :=
  match v with
  | .str s => .ok (googlePostProcess s)
  | .arr _ => .error .attributeError
  | _ => .error .typeError

/-- Four spaces of indentation per nesting level (`json.dumps(…, indent=4)`). -/
def jsonPad (level : Nat) : String :=
  String.mk (List.replicate (4 * level) ' ')

/-- JSON string escaping with `ensure_ascii=False`: only `"`, backslash and
control characters are escaped; everything else is emitted literally. -/
def jsonEscapeChar (c : Char) : String :=
  if c = Char.ofNat 34 then String.mk [Char.ofNat 92, Char.ofNat 34]
  else if c = Char.ofNat 92 then String.mk [Char.ofNat 92, Char.ofNat 92]
  else if c = Char.ofNat 10 then String.mk [Char.ofNat 92, 'n']
  else if c = Char.ofNat 13 then String.mk [Char.ofNat 92, 'r']
  else if c = Char.ofNat 9 then String.mk [Char.ofNat 92, 't']
  else if c = Char.ofNat 8 then String.mk [Char.ofNat 92, 'b']
  else if c = Char.ofNat 12 then String.mk [Char.ofNat 92, 'f']
  else if c.toNat < 32 then
    let hexDigit (n : Nat) : Char := if n < 10 then Char.ofNat (48 + n) else Char.ofNat (87 + n)
    String.mk [Char.ofNat 92, 'u', '0', '0', hexDigit (c.toNat / 16), hexDigit (c.toNat % 16)]
  else String.mk [c]

/-- A JSON string literal: quotes around the escaped characters. -/
def jsonQuote (s : String) : String :=
  String.mk [Char.ofNat 34] ++ String.join (s.data.map jsonEscapeChar) ++ String.mk [Char.ofNat 34]

/-- Decimal expansion of a fractional part `0 ≤ q < 1`; stops when the
remainder vanishes (dyadic and decimal fractions terminate), with fuel ample
for every IEEE double. -/
def fracDigits : Nat → ℚ → String
  | 0, _ => ""
  | fuel + 1, q =>
    let q10 := q * 10
    let d := q10.floor
    let rest := q10 - (d : ℚ)
    String.mk [Char.ofNat (48 + d.toNat)] ++ (if rest = 0 then "" else fracDigits fuel rest)

/-- Rendering of a JSON number as Python's `json.dumps` prints it: integers
without a decimal point, other rationals by their (terminating) decimal
expansion — the shortest-repr subtleties of IEEE floats are abstracted. -/
def pyNumRepr (q : ℚ) : String :=
  if q.den = 1 then toString q.num
  else
    (if q < 0 then "-" else "") ++
      toString |q|.floor ++ "." ++ fracDigits 1200 (|q| - (|q|.floor : ℚ))

mutual
/-- `json.dumps(v, indent=4, ensure_ascii=False)` at a given nesting level. -/
def jsonDumpsVal : Nat → Json → String
  | _, .null => "null"
  | _, .bool b => if b then "true" else "false"
  | _, .num q => pyNumRepr q
  | _, .str s => jsonQuote s
  | _, .arr [] => "[]"
  | level, .arr (x :: xs) =>
    "[\n" ++ jsonDumpsElems (level + 1) (x :: xs) ++ "\n" ++ jsonPad level ++ "]"
  | _, .obj [] => "\x7b\x7d"
  | level, .obj (f :: fs) =>
    "\x7b\n" ++ jsonDumpsFields (level + 1) (f :: fs) ++ "\n" ++ jsonPad level ++ "\x7d"

/-- Comma-and-newline separated array elements, each on its own indented line. -/
def jsonDumpsElems : Nat → List Json → String
  | _, [] => ""
  | level, [x] => jsonPad level ++ jsonDumpsVal level x
  | level, x :: x' :: xs =>
    jsonPad level ++ jsonDumpsVal level x ++ ",\n" ++ jsonDumpsElems level (x' :: xs)

/-- Comma-and-newline separated object entries, `"key": value` per line. -/
def jsonDumpsFields : Nat → List (String × Json) → String
  | _, [] => ""
  | level, [(k, v)] => jsonPad level ++ jsonQuote k ++ ": " ++ jsonDumpsVal level v
  | level, (k, v) :: f :: fs =>
    jsonPad level ++ jsonQuote k ++ ": " ++ jsonDumpsVal level v ++ ",\n" ++
      jsonDumpsFields level (f :: fs)
end

/-- `json.dumps(result_dict, indent=4, ensure_ascii=False)` (source line 163). -/
def pyJsonDumps (v : Json) : String := jsonDumpsVal 0 v

/-- The chained condition on source lines 119–122, with Python `and`
short-circuiting and each operand evaluated left to right:
`'result' in d and d['result'] and 'alternative' in d['result'][0] and
d['result'][0]['alternative'] and 'transcript' in d['result'][0]['alternative'][0]`. -/
def v2PathCheck (d : Json) : Except PyErr Bool :=
  match pyContains d "result" with
  | .error e => .error e
  | .ok false => .ok false
  | .ok true =>
    match pyGetItemS d "result" with
    | .error e => .error e
    | .ok r =>
      if !r.truthy then .ok false
      else
        match pyIndex r 0 with
        | .error e => .error e
        | .ok r0 =>
          match pyContains r0 "alternative" with
          | .error e => .error e
          | .ok false => .ok false
          | .ok true =>
            match pyGetItemS r0 "alternative" with
            | .error e => .error e
            | .ok a =>
              if !a.truthy then .ok false
              else
                match pyIndex a 0 with
                | .error e => .error e
                | .ok a0 => pyContains a0 "transcript"

/-- The repeated path expression `result_dict['result'][0]['alternative'][0]`
of `get_google_speech_v2_transcript`. -/
def v2Alt0 (d : Json) : Except PyErr Json :=
  match pyGetItemS d "result" with
  | .error e => .error e
  | .ok r =>
    match pyIndex r 0 with
    | .error e => .error e
    | .ok r0 =>
      match pyGetItemS r0 "alternative" with
      | .error e => .error e
      | .ok a => pyIndex a 0

/-- `get_google_speech_v2_transcript` (source lines 113–141): extract the
transcript from a Speech V2 line dictionary, gate it on
`confidence > min_confidence` when a confidence is present, and post-process
the returned text. -/
def get_google_speech_v2_transcript (min_confidence : ℚ) (result_dict : Json) :
    Except PyErr (Option String) :=
  match v2PathCheck result_dict with
  | .error e => .error e
  | .ok false => .ok none
  | .ok true =>
    match v2Alt0 result_dict with
    | .error e => .error e
    | .ok a0 =>
      match pyGetItemS a0 "transcript" with
      | .error e => .error e
      | .ok text =>
        match pyContains a0 "confidence" with
        | .error e => .error e
        | .ok true =>
          match pyGetItemS a0 "confidence" with
          | .error e => .error e
          | .ok cv =>
            match pyFloat cv with
            | .error e => .error e
            | .ok confidence =>
              if confidence > min_confidence then
                match pyCapReplace text with
                | .error e => .error e
                | .ok result => .ok (some result)
              else .ok none
        | .ok false =>
          -- can't find confidence in json: means it's 100% confident
          match pyCapReplace text with
          | .error e => .error e
          | .ok result => .ok (some result)

/-- The chained condition on source lines 149–152 for the V1P1Beta1 shape:
`'results' in d and d['results'] and 'alternatives' in d['results'][0] and
d['results'][0]['alternatives'] and 'transcript' in d['results'][0]['alternatives'][0]`. -/
def gcsPathCheck (d : Json) : Except PyErr Bool :=
  match pyContains d "results" with
  | .error e => .error e
  | .ok false => .ok false
  | .ok true =>
    match pyGetItemS d "results" with
    | .error e => .error e
    | .ok r =>
      if !r.truthy then .ok false
      else
        match pyIndex r 0 with
        | .error e => .error e
        | .ok r0 =>
          match pyContains r0 "alternatives" with
          | .error e => .error e
          | .ok false => .ok false
          | .ok true =>
            match pyGetItemS r0 "alternatives" with
            | .error e => .error e
            | .ok a =>
              if !a.truthy then .ok false
              else
                match pyIndex a 0 with
                | .error e => .error e
                | .ok a0 => pyContains a0 "transcript"

/-- The path expression `result_dict['results'][0]['alternatives'][0]`
(source line 153). -/
def gcsAlt0 (d : Json) : Except PyErr Json :=
  match pyGetItemS d "results" with
  | .error e => .error e
  | .ok r =>
    match pyIndex r 0 with
    | .error e => .error e
    | .ok r0 =>
      match pyGetItemS r0 "alternatives" with
      | .error e => .error e
      | .ok a => pyIndex a 0

/-- The confidence gate shared by both branches after the V1P1Beta1 path
check (source lines 165–180), applied to the inner alternatives dictionary. -/
def gcsConfidenceGate (min_confidence : ℚ) (rd : Json) : Except PyErr (Option String) :=
  match pyContains rd "confidence" with
  | .error e => .error e
  | .ok true =>
    match pyGetItemS rd "confidence" with
    | .error e => .error e
    | .ok cv =>
      match pyFloat cv with
      | .error e => .error e
      | .ok confidence =>
        if confidence > min_confidence then
          match pyGetItemS rd "transcript" with
          | .error e => .error e
          | .ok t =>
            match pyCapReplace t with
            | .error e => .error e
            | .ok result => .ok (some result)
        else .ok none
  | .ok false =>
    -- can't find confidence in json: means it's 100% confident
    match pyGetItemS rd "transcript" with
    | .error e => .error e
    | .ok t =>
      match pyCapReplace t with
      | .error e => .error e
      | .ok result => .ok (some result)

/-- `get_gcsv1p1beta1_transcript` (source lines 143–181): when the expected
`results[0].alternatives[0].transcript` path is present, gate and post-process
the transcript; otherwise return `None` for an empty (falsy) input and raise
`SpeechToTextException` with the indent-4 JSON dump for a nonempty one.  The
inner `'transcript' not in result_dict` early return of line 155 is kept from
the source although the path check already guarantees the key is present. -/
def get_gcsv1p1beta1_transcript (min_confidence : ℚ) (result_dict : Json) :
    Except PyErr (Option String) :=
  match gcsPathCheck result_dict with
  | .error e => .error e
  | .ok true =>
    match gcsAlt0 result_dict with
    | .error e => .error e
    | .ok rd =>
      match pyContains rd "transcript" with
      | .error e => .error e
      | .ok false => .ok none
      | .ok true => gcsConfidenceGate min_confidence rd
  | .ok false =>
    if !result_dict.truthy then
      -- if api returned empty json, don't throw the exception
      .ok none
    else .error (.speechToText (pyJsonDumps result_dict))

/-- Python `s.lower()` (full-Unicode lowering modelled by ASCII
`Char.toLower`). -/
def pyLower (s : String) : String :=
  String.mk (s.data.map Char.toLower)

/-- Python `s.endswith(t)`. -/
def pyEndsWith (s t : String) : Bool :=
  decide (t.data.length ≤ s.data.length) &&
    decide (s.data.drop (s.data.length - t.data.length) = t.data)

/-- A value of the module-level name `enums` dereferenced in the non-string
branch of `google_ext_to_enc`.  Modelled from the spec and the source's own
comments: when `constants.IS_GOOGLECLOUDCLIENT` is true the import
`from google.cloud.speech_v1p1beta1 import enums` is commented out
(source line 21), so the bare name `enums` is unbound and every access raises
`NameError`; otherwise `enums = None` (source line 25) and attribute access
raises `AttributeError`. -/
def enumsAttr (is_googlecloudclient : Bool) : Except PyErr Nat :=
  if is_googlecloudclient then .error .nameError else .error .attributeError

/-- Result of `google_ext_to_enc`: a string encoding name or an integer enum
code. -/
inductive GoogleEncoding where
  | str (s : String)
  | int (n : Nat)
deriving DecidableEq

/-- `google_ext_to_enc` (source lines 28–74): map a file extension to an audio
encoding.  The string branch matches lower-cased suffixes; the non-string
branch dereferences `enums.RecognitionConfig.AudioEncoding.…` in every arm
(the intended codes, per the source's comments, are FLAC=2, MP3=8, LINEAR16=1,
OGG_OPUS=6, ENCODING_UNSPECIFIED=0), so it propagates the `enums` error before
any code could be returned.  Python's full-Unicode `str.lower` is modelled by
ASCII `Char.toLower`. -/
def google_ext_to_enc (is_googlecloudclient : Bool) (extension : String)
    (is_string : Bool := true) : Except PyErr GoogleEncoding :=
  let ext := pyLower extension
  if is_string then
    .ok (.str
      (if pyEndsWith ext ".flac" then "FLAC"
       else if pyEndsWith ext ".mp3" then "MP3"
       else if pyEndsWith ext ".wav" ∨ pyEndsWith ext ".pcm" then "LINEAR16"
       else if pyEndsWith ext ".ogg" then "OGG_OPUS"
       else ""))
  else
    match enumsAttr is_googlecloudclient with
    | .error e => .error e
    | .ok _ =>
      .ok (.int
        (if pyEndsWith ext ".flac" then 2
         else if pyEndsWith ext ".mp3" then 8
         else if pyEndsWith ext ".wav" ∨ pyEndsWith ext ".pcm" then 1
         else if pyEndsWith ext ".ogg" then 6
         else 0))

/-- The dynamic argument of `google_enc_to_ext`: a string, an integer
(Python `bool` is a subclass of `int` and lands in the integer branch), or a
value of any other type. -/
inductive EncArg where
  | str (s : String)
  | int (n : Int)
  | other
deriving DecidableEq

/-- `google_enc_to_ext` (source lines 77–110): inverse mapping from an audio
encoding to the canonical file extension, with `.flac` as the fail-safe
default for unrecognized strings, unrecognized integers and any other input
type. -/
def google_enc_to_ext (encoding : EncArg) : String :=
  match encoding with
  | .str s =>
    if s = "FLAC" then ".flac"
    else if s = "MP3" then ".mp3"
    else if s = "LINEAR16" then ".wav"
    else if s = "OGG_OPUS" then ".ogg"
    else ".flac"
  | .int n =>
    if n = 2 then ".flac"
    else if n = 8 then ".mp3"
    else if n = 1 then ".wav"
    else if n = 6 then ".ogg"
    else ".flac"
  | .other => ".flac"

/-- `google_ext_to_enc` in string form followed by `google_enc_to_ext`. -/
def googleRoundTrip (is_googlecloudclient : Bool) (extension : String) :
    Except PyErr String :=
  match google_ext_to_enc is_googlecloudclient extension true with
  | .ok (.str s) => .ok (google_enc_to_ext (.str s))
  | .ok (.int n) => .ok (google_enc_to_ext (.int n))
  | .error e => .error e

/-- Observable file-system and network effects of one transcription call, in
program order. -/
inductive Event where
  | readFile (filename : String)
  | removeFile (filename : String)
  | post
deriving DecidableEq

/-- What a transcription call returns: Python `None`, a transcript string, or
(in full-result mode) the parsed response structure. -/
inductive CallResult where
  | none
  | transcript (s : String)
  | fullResult (d : Json)

/-- Outcome of one `requests.post` in `GoogleSpeechV2.__call__`: a
`ConnectionError`, or a response whose utf-8-decoded body, split on `"\n"`,
gives the listed lines, each represented by its `json.loads` outcome
(`Option.none` for a `ValueError`). -/
inductive V2Attempt where
  | connError
  | response (lines : List (Option Json))

/-- Body of one iteration of the line loop (source lines 218–232):
`.ok (some r)` means `return r`, `.ok none` means fall through to the next
line — either because the transcript is falsy (`None` or the empty string) or
because a caught `ValueError`/`IndexError` was raised; any other exception
propagates. -/
def v2HandleLine (min_confidence : ℚ) (is_full_result : Bool) (line_dict : Json) :
    Except PyErr (Option CallResult) :=
  match get_google_speech_v2_transcript min_confidence line_dict with
  | .error .valueError => .ok none
  | .error .indexError => .ok none
  | .error e => .error e
  | .ok Option.none => .ok none
  | .ok (some t) =>
    if t.data.isEmpty then .ok none
    else if !is_full_result then .ok (some (.transcript t))
    else .ok (some (.fullResult line_dict))

/-- The line loop of `GoogleSpeechV2.__call__`: scan the response lines in
order, skipping lines that fail `json.loads` (`Option.none`) and lines whose
handling falls through; after the loop, `return None` ends the whole call. -/
def v2ScanLines (min_confidence : ℚ) (is_full_result : Bool) :
    List (Option Json) → Except PyErr CallResult
  | [] => .ok .none
  | Option.none :: rest => v2ScanLines min_confidence is_full_result rest
  | some d :: rest =>
    match v2HandleLine min_confidence is_full_result d with
    | .error e => .error e
    | .ok (some r) => .ok r
    | .ok Option.none => v2ScanLines min_confidence is_full_result rest

/-- The retry loop of `GoogleSpeechV2.__call__` (`for _ in range(retries)`),
returning the result together with the number of POST requests issued:
a `ConnectionError` is swallowed and the next attempt made; any response at
all is scanned and ends the call. -/
def v2AttemptLoop (min_confidence : ℚ) (is_full_result : Bool)
    (attempts : Nat → V2Attempt) (i : Nat) : Nat → Except PyErr CallResult × Nat
  | 0 => (.ok .none, 0)
  | remaining + 1 =>
    match attempts i with
    | .connError =>
      let (res, k) := v2AttemptLoop min_confidence is_full_result attempts (i + 1) remaining
      (res, k + 1)
    | .response lines => (v2ScanLines min_confidence is_full_result lines, 1)

/-- Configuration of a `GoogleSpeechV2` client (source lines 187–200). -/
structure GoogleSpeechV2 where
  api_url : String
  headers : List (String × String)
  min_confidence : ℚ := 0
  retries : Nat := 3
  is_keep : Bool := false
  is_full_result : Bool := false

/-- `GoogleSpeechV2.__call__` (source lines 202–240): read the audio file,
delete it unless `is_keep`, then run the retry loop.  The result is paired
with the trace of file and network effects in program order.  The enclosing
`except KeyboardInterrupt` cannot fire in this pure model and the file read is
assumed to succeed; the response bytes themselves are a function of the
transport, so the audio payload is not modelled. -/
def GoogleSpeechV2.call (self : GoogleSpeechV2) (filename : String)
    (attempts : Nat → V2Attempt) : Except PyErr CallResult × List Event :=
  let (res, k) := v2AttemptLoop self.min_confidence self.is_full_result attempts 0 self.retries
  (res, .readFile filename ::
    (if self.is_keep then [] else [.removeFile filename]) ++ List.replicate k .post)

/-- Outcome of one `requests.post` in `GCSV1P1Beta1URL.__call__`: a
`ConnectionError`, or a response whose utf-8-decoded body is given by its
`json.loads` outcome (`Option.none` for a `ValueError`). -/
inductive GCSAttempt where
  | connError
  | response (body : Option Json)

/-- The retry loop of `GCSV1P1Beta1URL.__call__` (source lines 308–334),
returning the result and the number of POST requests issued: both a
`ConnectionError` and a body that fails `json.loads` lead to the next
attempt; a parseable body is normalized (or returned whole in full-result
mode) and ends the call. -/
def gcsAttemptLoop (min_confidence : ℚ) (is_full_result : Bool)
    (attempts : Nat → GCSAttempt) (i : Nat) : Nat → Except PyErr CallResult × Nat
  | 0 => (.ok .none, 0)
  | remaining + 1 =>
    match attempts i with
    | .connError =>
      let (res, k) := gcsAttemptLoop min_confidence is_full_result attempts (i + 1) remaining
      (res, k + 1)
    | .response Option.none =>
      let (res, k) := gcsAttemptLoop min_confidence is_full_result attempts (i + 1) remaining
      (res, k + 1)
    | .response (some result_dict) =>
      if !is_full_result then
        match get_gcsv1p1beta1_transcript min_confidence result_dict with
        | .error e => (.error e, 1)
        | .ok Option.none => (.ok .none, 1)
        | .ok (some t) => (.ok (.transcript t), 1)
      else (.ok (.fullResult result_dict), 1)

/-- Configuration of a `GCSV1P1Beta1URL` client (source lines 283–298). -/
structure GCSV1P1Beta1URL where
  config : Json
  api_url : String := ""
  headers : List (String × String) := []
  min_confidence : ℚ := 0
  retries : Nat := 3
  is_keep : Bool := false
  is_full_result : Bool := false

/-- `GCSV1P1Beta1URL.__call__` (source lines 300–339): read the audio file,
delete it unless `is_keep`, then run the retry loop; result paired with the
effect trace, under the same modelling caveats as `GoogleSpeechV2.call`. -/
def GCSV1P1Beta1URL.call (self : GCSV1P1Beta1URL) (filename : String)
    (attempts : Nat → GCSAttempt) : Except PyErr CallResult × List Event :=
  let (res, k) := gcsAttemptLoop self.min_confidence self.is_full_result attempts 0 self.retries
  (res, .readFile filename ::
    (if self.is_keep then [] else [.removeFile filename]) ++ List.replicate k .post)

/-- `gcsv1p1beta1_service_client` (source lines 243–275): read the audio file,
delete it unless `is_keep`, make exactly one SDK `recognize` call (the network
request), and normalize its decoded result dictionary unless in full-result
mode.  The vendor SDK is external, so the decoded `MessageToDict` result is a
parameter; `config` is passed through to the SDK and otherwise unused. -/
def gcsv1p1beta1_service_client (filename : String) (is_keep : Bool)
    (_config : Json) (min_confidence : ℚ) (is_full_result : Bool)
    (recognize_result : Json) : Except PyErr CallResult × List Event :=
  let res : Except PyErr CallResult :=
    if !is_full_result then
      match get_gcsv1p1beta1_transcript min_confidence recognize_result with
      | .error e => (.error e)
      | .ok Option.none => .ok .none
      | .ok (some t) => .ok (.transcript t)
    else .ok (.fullResult recognize_result)
  (res, .readFile filename ::
    (if is_keep then [] else [.removeFile filename]) ++ [.post])

/-- A response line the V2 line loop passes over without returning: the line
failed `json.loads`, or its normalized transcript is falsy (`None` or empty),
or normalization raised one of the two caught exceptions
(`ValueError`/`IndexError`). -/
def v2LineSkipped (min_confidence : ℚ) : Option Json → Bool
  | Option.none => true
  | some d =>
    match get_google_speech_v2_transcript min_confidence d with
    | .error .valueError => true
    | .error .indexError => true
    | .error _ => false
    | .ok Option.none => true
    | .ok (some t) => t.data.isEmpty

/-- Inner `alternative[0]` dictionary of the example V2 line, with a 0.9
confidence. -/
def exV2alt : Json :=
  .obj [("transcript", .str "hello world"), ("confidence", .num (mkRat 9 10))]

/-- Example V2 result line with a confidence field. -/
def exV2conf : Json :=
  .obj [("result", .arr [.obj [("alternative", .arr [exV2alt])]])]

/-- Inner `alternative[0]` dictionary without a confidence field. -/
def exV2altNoConf : Json := .obj [("transcript", .str "see you")]

/-- Example V2 result line without a confidence field. -/
def exV2noConf : Json :=
  .obj [("result", .arr [.obj [("alternative", .arr [exV2altNoConf])]])]

/-- Inner `alternatives[0]` dictionary of the example V1P1Beta1 result, with
confidence 1 (an integral value, so the kernel can evaluate the gate). -/
def exGcsAlt : Json :=
  .obj [("transcript", .str "good day"), ("confidence", .num 1)]

/-- Example V1P1Beta1 result with a confidence field. -/
def exGcsConf : Json :=
  .obj [("results", .arr [.obj [("alternatives", .arr [exGcsAlt])]])]

/-- Inner `alternatives[0]` dictionary without a confidence field. -/
def exGcsAltNoConf : Json := .obj [("transcript", .str "bye now")]

/-- Example V1P1Beta1 result without a confidence field. -/
def exGcsNoConf : Json :=
  .obj [("results", .arr [.obj [("alternatives", .arr [exGcsAltNoConf])]])]

/-- A nonempty V1P1Beta1 result missing the expected keys altogether. -/
def exGcsMalformed : Json := .obj [("error", .str "quota exceeded")]

/-- A V1P1Beta1 result whose `results[0].alternatives[0]` is reachable but
lacks the `transcript` key. -/
def exGcsNoTranscript : Json :=
  .obj [("results", .arr [.obj [("alternatives", .arr [.obj
    [("words", .str "x")]])]])]

/-- A V2 line whose transcript normalizes to the empty string. -/
def exV2emptyTranscript : Json :=
  .obj [("result", .arr [.obj [("alternative", .arr [.obj
    [("transcript", .str "")]])]])]

/-- Example V2 client configuration with three retries. -/
def cfgV2ex : GoogleSpeechV2 :=
  { api_url := "http://speech.example/v2", headers := [], min_confidence := 0,
    retries := 3, is_keep := false, is_full_result := false }

/-- Example V2 full-result client demanding confidence above 1. -/
def cfgV2full : GoogleSpeechV2 :=
  { api_url := "http://speech.example/v2", headers := [], min_confidence := 1,
    retries := 3, is_keep := true, is_full_result := true }

/-- Example V1P1Beta1 URL client configuration with three retries. -/
def cfgGcsEx : GCSV1P1Beta1URL :=
  { config := .obj [("languageCode", .str "en-US")],
    api_url := "http://speech.example/v1p1beta1", headers := [],
    min_confidence := 0, retries := 3, is_keep := false, is_full_result := false }

/-- Transport that fails with a connection error on the first two attempts and
then answers with a single-line body holding `exV2conf`. -/
def attV2FailTwice : Nat → V2Attempt :=
  fun n => if n = 2 then .response [some exV2conf] else .connError

/-- Transport whose every attempt fails with a connection error. -/
def attV2AllFail : Nat → V2Attempt := fun _ => .connError

/-- Transport answering immediately with a body whose first line is
unparseable, second line is `exV2conf`, and third line would also qualify. -/
def attV2MultiLine : Nat → V2Attempt :=
  fun _ => .response [Option.none, some exV2conf, some exV2noConf]

/-- Transport answering immediately with a parseable but transcript-free
body. -/
def attV2EmptyBody : Nat → V2Attempt :=
  fun _ => .response [some (.obj [])]

/-- V1P1Beta1 transport failing twice then answering with `exGcsConf`. -/
def attGcsFailTwice : Nat → GCSAttempt :=
  fun n => if n = 2 then .response (some exGcsConf) else .connError

/-- V1P1Beta1 transport whose every attempt fails with a connection error. -/
def attGcsAllFail : Nat → GCSAttempt := fun _ => .connError

/-- V1P1Beta1 transport answering immediately with `exGcsConf`. -/
def attGcsImmediate : Nat → GCSAttempt := fun _ => .response (some exGcsConf)

/-- Transport answering immediately with a single-line body holding
`exV2conf`. -/
def attV2Immediate : Nat → V2Attempt := fun _ => .response [some exV2conf]

/-- Example V2 full-result client that accepts any confidence. -/
def cfgV2fullOk : GoogleSpeechV2 :=
  { api_url := "http://speech.example/v2", headers := [], min_confidence := 0,
    retries := 3, is_keep := true, is_full_result := true }

/-- Example V1P1Beta1 URL client in full-result mode. -/
def cfgGcsFull : GCSV1P1Beta1URL :=
  { config := .obj [("languageCode", .str "en-US")],
    api_url := "http://speech.example/v1p1beta1", headers := [],
    min_confidence := 1, retries := 3, is_keep := true, is_full_result := true }

/-! ## Helper lemmas -/

theorem pyGetItemS_ok_facts {d v : Json} {k : String} (h : pyGetItemS d k = .ok v) :
    pyContains d k = .ok true ∧ d.truthy = true := by
  match d with
  | .obj fs =>
    match hl : fs.lookup k with
    | some x =>
      refine ⟨by simp [pyContains, hl], ?_⟩
      match fs with
      | [] => simp at hl
      | f :: fs => rfl
    | none => simp [pyGetItemS, hl] at h
  | .null => simp [pyGetItemS] at h
  | .bool b => simp [pyGetItemS] at h
  | .num q => simp [pyGetItemS] at h
  | .str s => simp [pyGetItemS] at h
  | .arr xs => simp [pyGetItemS] at h

theorem pyIndex_ok_truthy {d r : Json} {n : Nat} (h : pyIndex d n = .ok r) :
    d.truthy = true := by
  match d with
  | .arr xs =>
    match hx : xs[n]? with
    | some x =>
      match xs with
      | [] => simp at hx
      | _ :: _ => rfl
    | none => simp [pyIndex, hx] at h
  | .str s =>
    match hx : s.data[n]? with
    | some c =>
      match hs : s.data with
      | [] => rw [hs] at hx; simp at hx
      | _ :: _ => simp [Json.truthy, hs]
    | none => simp [pyIndex, hx] at h
  | .null => simp [pyIndex] at h
  | .bool b => simp [pyIndex] at h
  | .num q => simp [pyIndex] at h
  | .obj fs => simp [pyIndex] at h

theorem v2ScanLines_cons_skip (m : ℚ) (full : Bool) (l : Option Json)
    (rest : List (Option Json)) (h : v2LineSkipped m l = true) :
    v2ScanLines m full (l :: rest) = v2ScanLines m full rest := by
  match l with
  | Option.none => rfl
  | some d =>
    simp only [v2LineSkipped] at h
    simp only [v2ScanLines, v2HandleLine]
    cases hg : get_google_speech_v2_transcript m d with
    | error e =>
      rw [hg] at h
      cases e <;> simp_all
    | ok t =>
      rw [hg] at h
      match t with
      | Option.none => simp
      | some s =>
        simp only at h
        simp [h]

theorem v2ScanLines_all_skip (m : ℚ) (full : Bool) (lines : List (Option Json))
    (h : ∀ l ∈ lines, v2LineSkipped m l = true) :
    v2ScanLines m full lines = .ok .none := by
  induction lines with
  | nil => rfl
  | cons l rest ih =>
    rw [v2ScanLines_cons_skip m full l rest (h l (by simp))]
    exact ih (fun x hx => h x (by simp [hx]))

theorem v2ScanLines_first_hit (m : ℚ) (full : Bool) (d : Json) (t : String)
    (rest : List (Option Json)) (hg : get_google_speech_v2_transcript m d = .ok (some t))
    (hne : t ≠ "") :
    v2ScanLines m full (some d :: rest) =
      .ok (if full then .fullResult d else .transcript t) := by
  have hemp : t.data.isEmpty = false := by
    cases he : t.data with
    | nil =>
      exact absurd (by cases t; simp_all) hne
    | cons c cs => simp [he]
  simp only [v2ScanLines, v2HandleLine, hg, hemp]
  cases full <;> simp

theorem v2AttemptLoop_conn_all (m : ℚ) (full : Bool) (attempts : Nat → V2Attempt) :
    ∀ (r i : Nat), (∀ j, j < r → attempts (i + j) = .connError) →
    v2AttemptLoop m full attempts i r = (.ok .none, r) := by
  intro r
  induction r with
  | zero => intro i _; rfl
  | succ r ih =>
    intro i h
    have h0 : attempts i = .connError := by
      have := h 0 (Nat.succ_pos r)
      simpa using this
    simp only [v2AttemptLoop, h0]
    rw [ih (i + 1) (fun j hj => by
      have h' := h (j + 1) (Nat.succ_lt_succ hj)
      have e : i + 1 + j = i + (j + 1) := by omega
      rw [e]
      exact h')]

theorem v2AttemptLoop_posts_le (m : ℚ) (full : Bool) (attempts : Nat → V2Attempt) :
    ∀ (r i : Nat), (v2AttemptLoop m full attempts i r).2 ≤ r := by
  intro r
  induction r with
  | zero => intro i; exact Nat.le_refl 0
  | succ r ih =>
    intro i
    simp only [v2AttemptLoop]
    cases attempts i with
    | connError => exact Nat.succ_le_succ (ih (i + 1))
    | response lines => exact Nat.succ_le_succ (Nat.zero_le r)

theorem gcsAttemptLoop_conn_all (m : ℚ) (full : Bool) (attempts : Nat → GCSAttempt) :
    ∀ (r i : Nat), (∀ j, j < r → attempts (i + j) = .connError) →
    gcsAttemptLoop m full attempts i r = (.ok .none, r) := by
  intro r
  induction r with
  | zero => intro i _; rfl
  | succ r ih =>
    intro i h
    have h0 : attempts i = .connError := by
      have := h 0 (Nat.succ_pos r)
      simpa using this
    simp only [gcsAttemptLoop, h0]
    rw [ih (i + 1) (fun j hj => by
      have h' := h (j + 1) (Nat.succ_lt_succ hj)
      have e : i + 1 + j = i + (j + 1) := by omega
      rw [e]
      exact h')]

theorem gcsAttemptLoop_posts_le (m : ℚ) (full : Bool) (attempts : Nat → GCSAttempt) :
    ∀ (r i : Nat), (gcsAttemptLoop m full attempts i r).2 ≤ r := by
  intro r
  induction r with
  | zero => intro i; exact Nat.le_refl 0
  | succ r ih =>
    intro i
    simp only [gcsAttemptLoop]
    cases attempts i with
    | connError => exact Nat.succ_le_succ (ih (i + 1))
    | response body =>
      cases body with
      | none => exact Nat.succ_le_succ (ih (i + 1))
      | some d =>
        cases hb : !full <;> simp [hb]
        cases get_gcsv1p1beta1_transcript m d with
        | error e => simp
        | ok t => cases t <;> simp

theorem trace_count_post (filename : String) (is_keep : Bool) (k : Nat) :
    ((Event.readFile filename ::
      (if is_keep then [] else [Event.removeFile filename]) ++
        List.replicate k Event.post).count Event.post) = k := by
  cases is_keep <;> simp [List.count_cons, List.count_append, List.count_replicate]

/-! ## Claims -/

/-- C7: for every extension in `{.flac, .FLAC, .mp3, .wav, .pcm, .ogg}`,
composing `google_ext_to_enc` in string form with `google_enc_to_ext` yields
the canonical lower-case extension, with both `.wav` and `.pcm` round-tripping
to `.wav` (regardless of the cloud-client flag). -/
theorem ext_enc_roundtrip_canonical :
    ∀ b : Bool,
      googleRoundTrip b ".flac" = .ok ".flac" ∧
      googleRoundTrip b ".FLAC" = .ok ".flac" ∧
      googleRoundTrip b ".mp3" = .ok ".mp3" ∧
      googleRoundTrip b ".wav" = .ok ".wav" ∧
      googleRoundTrip b ".pcm" = .ok ".wav" ∧
      googleRoundTrip b ".ogg" = .ok ".ogg" := by
  decide

/-- C8 (evaluation at the failing input): for an extension matching none of
the recognized suffixes, the string form returns the empty string without
raising, but the enum form raises — `NameError` when the cloud client is
configured (the `enums` import is commented out) and `AttributeError`
otherwise (`enums` is `None`) — instead of returning the
`ENCODING_UNSPECIFIED` value the claim (and the source's own comments)
describe. -/
theorem ext_to_enc_unrecognized_behavior :
    (∀ b : Bool, google_ext_to_enc b ".xyz" true = .ok (.str "")) ∧
    google_ext_to_enc true ".xyz" false = .error .nameError ∧
    google_ext_to_enc false ".xyz" false = .error .attributeError := by
  decide

/-- C2: an empty (falsy) result dictionary yields `None` without raising for
every threshold, and a nonempty dictionary that fails the
`results`/`alternatives`/`transcript` path check raises
`SpeechToTextException` whose message is the indent-4 JSON dump of the
original payload. -/
theorem gcs_empty_none_malformed_raises :
    (∀ min_confidence : ℚ,
      get_gcsv1p1beta1_transcript min_confidence (.obj []) = .ok none) ∧
    (∀ (min_confidence : ℚ) (fields : List (String × Json)),
      fields ≠ [] →
      gcsPathCheck (.obj fields) = .ok false →
      get_gcsv1p1beta1_transcript min_confidence (.obj fields) =
        .error (.speechToText (pyJsonDumps (.obj fields)))) := by
  constructor
  · intro m; rfl
  · intro m fields hne hchk
    simp only [get_gcsv1p1beta1_transcript, hchk]
    match fields, hne with
    | f :: fs, _ => rfl

/-- Witness for C2 at concrete inputs: the empty dictionary and a nonempty
malformed payload. -/
theorem gcs_empty_none_malformed_raises_witness :
    get_gcsv1p1beta1_transcript 0 (.obj []) = .ok none ∧
    get_gcsv1p1beta1_transcript 0 exGcsMalformed =
      .error (.speechToText (pyJsonDumps exGcsMalformed)) := by
  refine ⟨gcs_empty_none_malformed_raises.1 0, ?_⟩
  exact gcs_empty_none_malformed_raises.2 0 [("error", .str "quota exceeded")]
    (by simp) (by decide)

/-- C3 fails on the code: a result whose `results[0].alternatives[0]` is
reachable but lacks `transcript` makes the path check false while the input
is nonempty, so the code raises `SpeechToTextException` instead of returning
`None`. -/
theorem gcs_missing_transcript_raises_counterexample :
    get_gcsv1p1beta1_transcript 0 exGcsNoTranscript =
      .error (.speechToText (pyJsonDumps exGcsNoTranscript)) ∧
    get_gcsv1p1beta1_transcript 0 exGcsNoTranscript ≠ .ok none := by
  constructor
  · rfl
  · intro h
    rw [show get_gcsv1p1beta1_transcript 0 exGcsNoTranscript =
      .error (.speechToText (pyJsonDumps exGcsNoTranscript)) from rfl] at h
    cases h

/-- C3 amended: whenever the outer path `results[0].alternatives[0]` is
reachable but that inner dictionary lacks the `transcript` key, the
normalizer raises `SpeechToTextException` carrying the indent-4 JSON dump of
the payload (it does not return `None`; the inner `not in` check of source
line 155 is dead code). -/
theorem gcs_missing_transcript_raises :
    ∀ (min_confidence : ℚ) (d r r0 a a0 : Json),
      pyGetItemS d "results" = .ok r →
      pyIndex r 0 = .ok r0 →
      pyGetItemS r0 "alternatives" = .ok a →
      pyIndex a 0 = .ok a0 →
      pyContains a0 "transcript" = .ok false →
      get_gcsv1p1beta1_transcript min_confidence d =
        .error (.speechToText (pyJsonDumps d)) := by
  intro m d r r0 a a0 h1 h2 h3 h4 h5
  obtain ⟨hc1, hd⟩ := pyGetItemS_ok_facts h1
  have hr := pyIndex_ok_truthy h2
  obtain ⟨hc3, _⟩ := pyGetItemS_ok_facts h3
  have ha := pyIndex_ok_truthy h4
  have hchk : gcsPathCheck d = .ok false := by
    simp only [gcsPathCheck, hc1, h1, hr, h2, hc3, h3, ha, h4, h5]
    simp
  simp only [get_gcsv1p1beta1_transcript, hchk, hd]
  rfl

/-- Witness for the amended C3 at the concrete payload. -/
theorem gcs_missing_transcript_raises_witness :
    get_gcsv1p1beta1_transcript 1 exGcsNoTranscript =
      .error (.speechToText (pyJsonDumps exGcsNoTranscript)) := by
  exact gcs_missing_transcript_raises 1 exGcsNoTranscript
    (.arr [.obj [("alternatives", .arr [.obj [("words", .str "x")]])]])
    (.obj [("alternatives", .arr [.obj [("words", .str "x")]])])
    (.arr [.obj [("words", .str "x")]])
    (.obj [("words", .str "x")])
    rfl rfl rfl rfl rfl

/-- C1: for both normalizers, when the expected transcript path is present
(and the transcript is a string): with a `confidence` field convertible to a
number, the post-processed transcript is returned exactly when
`confidence > min_confidence` (strictly) and `None` otherwise; without a
`confidence` field, the post-processed transcript is returned for every
threshold. -/
theorem normalizers_confidence_gate :
    (∀ (min_confidence : ℚ) (d a0 : Json) (t : String),
      v2PathCheck d = .ok true →
      v2Alt0 d = .ok a0 →
      pyGetItemS a0 "transcript" = .ok (.str t) →
      pyContains a0 "confidence" = .ok false →
      get_google_speech_v2_transcript min_confidence d =
        .ok (some (googlePostProcess t))) ∧
    (∀ (min_confidence c : ℚ) (d a0 cv : Json) (t : String),
      v2PathCheck d = .ok true →
      v2Alt0 d = .ok a0 →
      pyGetItemS a0 "transcript" = .ok (.str t) →
      pyContains a0 "confidence" = .ok true →
      pyGetItemS a0 "confidence" = .ok cv →
      pyFloat cv = .ok c →
      get_google_speech_v2_transcript min_confidence d =
        .ok (if min_confidence < c then some (googlePostProcess t) else none)) ∧
    (∀ (min_confidence : ℚ) (d rd : Json) (t : String),
      gcsPathCheck d = .ok true →
      gcsAlt0 d = .ok rd →
      pyContains rd "transcript" = .ok true →
      pyGetItemS rd "transcript" = .ok (.str t) →
      pyContains rd "confidence" = .ok false →
      get_gcsv1p1beta1_transcript min_confidence d =
        .ok (some (googlePostProcess t))) ∧
    (∀ (min_confidence c : ℚ) (d rd cv : Json) (t : String),
      gcsPathCheck d = .ok true →
      gcsAlt0 d = .ok rd →
      pyContains rd "transcript" = .ok true →
      pyGetItemS rd "transcript" = .ok (.str t) →
      pyContains rd "confidence" = .ok true →
      pyGetItemS rd "confidence" = .ok cv →
      pyFloat cv = .ok c →
      get_gcsv1p1beta1_transcript min_confidence d =
        .ok (if min_confidence < c then some (googlePostProcess t) else none)) := by
  refine ⟨?_, ?_, ?_, ?_⟩
  · intro m d a0 t h1 h2 h3 h4
    simp only [get_google_speech_v2_transcript, h1, h2, h3, h4, pyCapReplace]
  · intro m c d a0 cv t h1 h2 h3 h4 h5 h6
    simp only [get_google_speech_v2_transcript, h1, h2, h3, h4, h5, h6, pyCapReplace,
      gt_iff_lt]
    by_cases hc : m < c
    · simp [hc]
    · simp [hc]
  · intro m d rd t h1 h2 h3 h4 h5
    simp only [get_gcsv1p1beta1_transcript, h1, h2, h3, gcsConfidenceGate, h4, h5,
      pyCapReplace]
  · intro m c d rd cv t h1 h2 h3 h4 h5 h6 h7
    simp only [get_gcsv1p1beta1_transcript, h1, h2, h3, gcsConfidenceGate, h4, h5, h6, h7,
      pyCapReplace, gt_iff_lt]
    by_cases hc : m < c
    · simp [hc]
    · simp [hc]

/-- Witness for C1 at concrete inputs: both normalizers, with and without a
confidence field, above, at and below the threshold. -/
theorem normalizers_confidence_gate_witness :
    get_google_speech_v2_transcript 2 exV2noConf = .ok (some "See you") ∧
    get_google_speech_v2_transcript 0 exV2conf = .ok (some "Hello world") ∧
    get_google_speech_v2_transcript (mkRat 9 10) exV2conf = .ok none ∧
    get_gcsv1p1beta1_transcript 2 exGcsNoConf = .ok (some "Bye now") ∧
    get_gcsv1p1beta1_transcript 0 exGcsConf = .ok (some "Good day") ∧
    get_gcsv1p1beta1_transcript 1 exGcsConf = .ok none := by
  refine ⟨?_, ?_, ?_, ?_, ?_, ?_⟩
  · exact (normalizers_confidence_gate.1 2 exV2noConf exV2altNoConf "see you"
      rfl rfl rfl rfl).trans (by decide)
  · exact (normalizers_confidence_gate.2.1 0 (mkRat 9 10) exV2conf exV2alt
      (.num (mkRat 9 10)) "hello world"
      rfl rfl rfl rfl rfl rfl).trans (by decide)
  · exact (normalizers_confidence_gate.2.1 (mkRat 9 10) (mkRat 9 10) exV2conf exV2alt
      (.num (mkRat 9 10)) "hello world"
      rfl rfl rfl rfl rfl rfl).trans (by decide)
  · exact (normalizers_confidence_gate.2.2.1 2 exGcsNoConf exGcsAltNoConf "bye now"
      rfl rfl rfl rfl rfl).trans (by decide)
  · exact (normalizers_confidence_gate.2.2.2 0 1 exGcsConf exGcsAlt (.num 1) "good day"
      rfl rfl rfl rfl rfl rfl rfl).trans (by decide)
  · exact (normalizers_confidence_gate.2.2.2 1 1 exGcsConf exGcsAlt (.num 1) "good day"
      rfl rfl rfl rfl rfl rfl rfl).trans (by decide)

theorem GoogleSpeechV2_call_fst (cfg : GoogleSpeechV2) (f : String)
    (attempts : Nat → V2Attempt) :
    (cfg.call f attempts).1 =
      (v2AttemptLoop cfg.min_confidence cfg.is_full_result attempts 0 cfg.retries).1 := rfl

theorem GoogleSpeechV2_call_snd (cfg : GoogleSpeechV2) (f : String)
    (attempts : Nat → V2Attempt) :
    (cfg.call f attempts).2 =
      .readFile f :: (if cfg.is_keep then [] else [.removeFile f]) ++
        List.replicate
          (v2AttemptLoop cfg.min_confidence cfg.is_full_result attempts 0 cfg.retries).2
          .post := rfl

theorem GCSV1P1Beta1URL_call_fst (cfg : GCSV1P1Beta1URL) (f : String)
    (attempts : Nat → GCSAttempt) :
    (cfg.call f attempts).1 =
      (gcsAttemptLoop cfg.min_confidence cfg.is_full_result attempts 0 cfg.retries).1 := rfl

theorem GCSV1P1Beta1URL_call_snd (cfg : GCSV1P1Beta1URL) (f : String)
    (attempts : Nat → GCSAttempt) :
    (cfg.call f attempts).2 =
      .readFile f :: (if cfg.is_keep then [] else [.removeFile f]) ++
        List.replicate
          (gcsAttemptLoop cfg.min_confidence cfg.is_full_result attempts 0 cfg.retries).2
          .post := rfl

theorem v2HandleLine_transcript_ne (m : ℚ) (full : Bool) (d : Json) (s : String)
    (h : v2HandleLine m full d = .ok (some (.transcript s))) : s ≠ "" := by
  unfold v2HandleLine at h
  cases hg : get_google_speech_v2_transcript m d with
  | error e =>
    rw [hg] at h
    cases e <;> simp at h
  | ok t =>
    rw [hg] at h
    match t with
    | Option.none => simp at h
    | some u =>
      by_cases he : u.data.isEmpty
      · simp [he] at h
      · cases full with
        | false =>
          simp [he] at h
          subst h
          intro hs
          subst hs
          simp at he
        | true => simp [he] at h

theorem v2ScanLines_transcript_ne (m : ℚ) (full : Bool) (lines : List (Option Json))
    (t : String) (h : v2ScanLines m full lines = .ok (.transcript t)) : t ≠ "" := by
  induction lines with
  | nil => simp [v2ScanLines] at h
  | cons l rest ih =>
    match l with
    | Option.none => exact ih h
    | some d =>
      simp only [v2ScanLines] at h
      cases hh : v2HandleLine m full d with
      | error e => rw [hh] at h; cases h
      | ok o =>
        rw [hh] at h
        match o with
        | Option.none => exact ih h
        | some r =>
          simp only at h
          cases h
          exact v2HandleLine_transcript_ne m full d t hh

theorem v2AttemptLoop_transcript_ne (m : ℚ) (full : Bool) (attempts : Nat → V2Attempt) :
    ∀ (r i : Nat) (t : String),
      (v2AttemptLoop m full attempts i r).1 = .ok (.transcript t) → t ≠ "" := by
  intro r
  induction r with
  | zero => intro i t h; cases h
  | succ r ih =>
    intro i t h
    simp only [v2AttemptLoop] at h
    cases ha : attempts i with
    | connError => rw [ha] at h; exact ih (i + 1) t h
    | response lines =>
      rw [ha] at h
      exact v2ScanLines_transcript_ne m full lines t h

/-- C4: the V2 client scans the newline-split, per-line-parsed body in order —
every line before the first qualifying one is skipped non-fatally (parse
failure, caught indexing error, or falsy transcript), the first qualifying
line's result is returned with the later lines never examined (the result does
not depend on `rest`), and an attempt whose body yields no transcript at all
ends the whole call with `None` after exactly one POST instead of proceeding
to the next retry. -/
theorem v2_line_scan_semantics :
    (∀ (min_confidence : ℚ) (is_full_result : Bool) (pre : List (Option Json))
        (d : Json) (t : String) (rest : List (Option Json)),
      (∀ l ∈ pre, v2LineSkipped min_confidence l = true) →
      get_google_speech_v2_transcript min_confidence d = .ok (some t) → t ≠ "" →
      v2ScanLines min_confidence is_full_result (pre ++ some d :: rest) =
        .ok (if is_full_result then .fullResult d else .transcript t)) ∧
    (∀ (cfg : GoogleSpeechV2) (filename : String) (attempts : Nat → V2Attempt)
        (lines : List (Option Json)),
      1 ≤ cfg.retries →
      attempts 0 = .response lines →
      (∀ l ∈ lines, v2LineSkipped cfg.min_confidence l = true) →
      (cfg.call filename attempts).1 = .ok .none ∧
        ((cfg.call filename attempts).2.count .post) = 1) := by
  constructor
  · intro m full pre d t rest hpre hg hne
    induction pre with
    | nil => exact v2ScanLines_first_hit m full d t rest hg hne
    | cons l pre ih =>
      rw [List.cons_append, v2ScanLines_cons_skip m full l _ (hpre l (by simp))]
      exact ih (fun x hx => hpre x (by simp [hx]))
  · intro cfg filename attempts lines hret h0 hskip
    obtain ⟨r, hr⟩ : ∃ r, cfg.retries = r + 1 := ⟨cfg.retries - 1, by omega⟩
    have hloop : v2AttemptLoop cfg.min_confidence cfg.is_full_result attempts 0 cfg.retries
        = (.ok .none, 1) := by
      rw [hr]
      simp only [v2AttemptLoop, h0]
      rw [v2ScanLines_all_skip _ _ _ hskip]
    constructor
    · rw [GoogleSpeechV2_call_fst, hloop]
    · rw [GoogleSpeechV2_call_snd, hloop]
      exact trace_count_post filename cfg.is_keep 1

/-- Witness for C4: a body whose first line is unparseable and whose second
line qualifies returns the second line's transcript whatever follows, and a
parseable transcript-free body ends the call with `None` after one POST. -/
theorem v2_line_scan_semantics_witness :
    v2ScanLines 0 false [Option.none, some exV2conf, some exV2noConf] =
      .ok (.transcript "Hello world") ∧
    (cfgV2ex.call "audio.flac" attV2EmptyBody).1 = .ok .none ∧
    ((cfgV2ex.call "audio.flac" attV2EmptyBody).2.count .post) = 1 := by
  refine ⟨?_, ?_⟩
  · exact v2_line_scan_semantics.1 0 false [Option.none] exV2conf "Hello world"
      [some exV2noConf]
      (by intro l hl; rw [List.mem_singleton] at hl; subst hl; rfl)
      rfl (by decide)
  · exact v2_line_scan_semantics.2 cfgV2ex "audio.flac" attV2EmptyBody
      [some (.obj [])] (by decide) rfl
      (by intro l hl; rw [List.mem_singleton] at hl; subst hl; rfl)

/-- C5: for both URL clients a connection failure is swallowed and the next
attempt made, at most `retries` POSTs are issued, all attempts failing yields
`None` without raising, and with `retries = 3` a transport failing twice then
succeeding yields the successful transcript. -/
theorem clients_retry_semantics :
    (∀ (cfg : GoogleSpeechV2) (filename : String) (attempts : Nat → V2Attempt),
      ((cfg.call filename attempts).2.count .post) ≤ cfg.retries ∧
      ((∀ i, i < cfg.retries → attempts i = .connError) →
        (cfg.call filename attempts).1 = .ok .none)) ∧
    (∀ (cfg : GCSV1P1Beta1URL) (filename : String) (attempts : Nat → GCSAttempt),
      ((cfg.call filename attempts).2.count .post) ≤ cfg.retries ∧
      ((∀ i, i < cfg.retries → attempts i = .connError) →
        (cfg.call filename attempts).1 = .ok .none)) ∧
    (∀ (cfg : GoogleSpeechV2) (filename : String) (attempts : Nat → V2Attempt)
        (d : Json) (t : String) (rest : List (Option Json)),
      cfg.retries = 3 → cfg.is_full_result = false →
      attempts 0 = .connError → attempts 1 = .connError →
      attempts 2 = .response (some d :: rest) →
      get_google_speech_v2_transcript cfg.min_confidence d = .ok (some t) → t ≠ "" →
      (cfg.call filename attempts).1 = .ok (.transcript t)) ∧
    (∀ (cfg : GCSV1P1Beta1URL) (filename : String) (attempts : Nat → GCSAttempt)
        (d : Json) (t : String),
      cfg.retries = 3 → cfg.is_full_result = false →
      attempts 0 = .connError → attempts 1 = .connError →
      attempts 2 = .response (some d) →
      get_gcsv1p1beta1_transcript cfg.min_confidence d = .ok (some t) →
      (cfg.call filename attempts).1 = .ok (.transcript t)) := by
  refine ⟨?_, ?_, ?_, ?_⟩
  · intro cfg filename attempts
    constructor
    · rw [GoogleSpeechV2_call_snd, trace_count_post]
      exact v2AttemptLoop_posts_le _ _ _ _ _
    · intro h
      rw [GoogleSpeechV2_call_fst,
        v2AttemptLoop_conn_all _ _ _ _ _ (fun j hj => by rw [Nat.zero_add]; exact h j hj)]
  · intro cfg filename attempts
    constructor
    · rw [GCSV1P1Beta1URL_call_snd, trace_count_post]
      exact gcsAttemptLoop_posts_le _ _ _ _ _
    · intro h
      rw [GCSV1P1Beta1URL_call_fst,
        gcsAttemptLoop_conn_all _ _ _ _ _ (fun j hj => by rw [Nat.zero_add]; exact h j hj)]
  · intro cfg filename attempts d t rest hr hfull h0 h1 h2 hg hne
    rw [GoogleSpeechV2_call_fst, hr, hfull]
    have hscan := v2ScanLines_first_hit cfg.min_confidence false d t rest hg hne
    simp [v2AttemptLoop, h0, h1, h2, hscan]
  · intro cfg filename attempts d t hr hfull h0 h1 h2 hg
    rw [GCSV1P1Beta1URL_call_fst, hr, hfull]
    simp [gcsAttemptLoop, h0, h1, h2, hg]

/-- Witness for C5: concrete transports that always fail, and that fail twice
then succeed, against both URL clients. -/
theorem clients_retry_semantics_witness :
    ((cfgV2ex.call "audio.flac" attV2AllFail).2.count .post) ≤ cfgV2ex.retries ∧
    (cfgV2ex.call "audio.flac" attV2AllFail).1 = .ok .none ∧
    (cfgV2ex.call "audio.flac" attV2FailTwice).1 = .ok (.transcript "Hello world") ∧
    ((cfgGcsEx.call "audio.flac" attGcsAllFail).2.count .post) ≤ cfgGcsEx.retries ∧
    (cfgGcsEx.call "audio.flac" attGcsAllFail).1 = .ok .none ∧
    (cfgGcsEx.call "audio.flac" attGcsFailTwice).1 = .ok (.transcript "Good day") := by
  refine ⟨?_, ?_, ?_, ?_, ?_, ?_⟩
  · exact (clients_retry_semantics.1 cfgV2ex "audio.flac" attV2AllFail).1
  · exact (clients_retry_semantics.1 cfgV2ex "audio.flac" attV2AllFail).2
      (fun i _ => rfl)
  · exact clients_retry_semantics.2.2.1 cfgV2ex "audio.flac" attV2FailTwice exV2conf
      "Hello world" [] rfl rfl rfl rfl rfl rfl (by decide)
  · exact (clients_retry_semantics.2.1 cfgGcsEx "audio.flac" attGcsAllFail).1
  · exact (clients_retry_semantics.2.1 cfgGcsEx "audio.flac" attGcsAllFail).2
      (fun i _ => rfl)
  · exact clients_retry_semantics.2.2.2 cfgGcsEx "audio.flac" attGcsFailTwice exGcsConf
      "Good day" rfl rfl rfl rfl rfl rfl

/-- C6 fails on the code for `GoogleSpeechV2`: in full-result mode a line is
still gated through the normalizer, so a response whose only line has
confidence 0.9 against a 1.0 threshold makes the call return `None` instead of
the parsed line structure. -/
theorem v2_full_result_gating_counterexample :
    (cfgV2full.call "audio.flac" attV2Immediate).1 = .ok .none ∧
    (cfgV2full.call "audio.flac" attV2Immediate).1 ≠ .ok (.fullResult exV2conf) := by
  constructor
  · rfl
  · rw [show (cfgV2full.call "audio.flac" attV2Immediate).1 = .ok .none from rfl]
    simp

/-- C6 amended: in the two V1P1Beta1 variants, full-result mode returns the
parsed/decoded structure itself, bypassing normalization entirely; in
`GoogleSpeechV2`, full-result mode returns the first line's parsed structure
instead of its transcript string, but only for a line whose normalized
transcript passes the confidence gate and is non-empty — the retry and
parsing steps are unchanged. -/
theorem full_result_mode_semantics :
    (∀ (cfg : GCSV1P1Beta1URL) (filename : String) (attempts : Nat → GCSAttempt)
        (d : Json),
      cfg.is_full_result = true → 1 ≤ cfg.retries →
      attempts 0 = .response (some d) →
      (cfg.call filename attempts).1 = .ok (.fullResult d)) ∧
    (∀ (filename : String) (is_keep : Bool) (config : Json) (min_confidence : ℚ)
        (recognize_result : Json),
      (gcsv1p1beta1_service_client filename is_keep config min_confidence true
        recognize_result).1 = .ok (.fullResult recognize_result)) ∧
    (∀ (cfg : GoogleSpeechV2) (filename : String) (attempts : Nat → V2Attempt)
        (d : Json) (t : String) (rest : List (Option Json)),
      cfg.is_full_result = true → 1 ≤ cfg.retries →
      attempts 0 = .response (some d :: rest) →
      get_google_speech_v2_transcript cfg.min_confidence d = .ok (some t) → t ≠ "" →
      (cfg.call filename attempts).1 = .ok (.fullResult d)) := by
  refine ⟨?_, ?_, ?_⟩
  · intro cfg filename attempts d hfull hret h0
    obtain ⟨r, hr⟩ : ∃ r, cfg.retries = r + 1 := ⟨cfg.retries - 1, by omega⟩
    rw [GCSV1P1Beta1URL_call_fst, hr, hfull]
    simp [gcsAttemptLoop, h0]
  · intro filename is_keep config m d
    rfl
  · intro cfg filename attempts d t rest hfull hret h0 hg hne
    obtain ⟨r, hr⟩ : ∃ r, cfg.retries = r + 1 := ⟨cfg.retries - 1, by omega⟩
    rw [GoogleSpeechV2_call_fst, hr, hfull]
    have hscan := v2ScanLines_first_hit cfg.min_confidence true d t rest hg hne
    simp [v2AttemptLoop, h0, hscan]

/-- Witness for the amended C6 at concrete clients and payloads. -/
theorem full_result_mode_semantics_witness :
    (cfgGcsFull.call "audio.flac" attGcsImmediate).1 = .ok (.fullResult exGcsConf) ∧
    (gcsv1p1beta1_service_client "audio.flac" false (.obj []) 7 true exGcsConf).1 =
      .ok (.fullResult exGcsConf) ∧
    (cfgV2fullOk.call "audio.flac" attV2Immediate).1 = .ok (.fullResult exV2conf) := by
  refine ⟨?_, ?_, ?_⟩
  · exact full_result_mode_semantics.1 cfgGcsFull "audio.flac" attGcsImmediate exGcsConf
      rfl (by decide) rfl
  · exact full_result_mode_semantics.2.1 "audio.flac" false (.obj []) 7 exGcsConf
  · exact full_result_mode_semantics.2.2 cfgV2fullOk "audio.flac" attV2Immediate exV2conf
      "Hello world" [] rfl (by decide) rfl rfl (by decide)

/-- C9: in every client variant with the keep-source flag false, the effect
trace is exactly the file read, then the file deletion, then the POSTs — so
the deletion precedes every network request and no sequence of network
failures can leave the file un-deleted. -/
theorem delete_before_network :
    ∀ filename : String,
      (∀ (cfg : GoogleSpeechV2) (attempts : Nat → V2Attempt), cfg.is_keep = false →
        ∃ k, (cfg.call filename attempts).2 =
          .readFile filename :: .removeFile filename :: List.replicate k .post) ∧
      (∀ (cfg : GCSV1P1Beta1URL) (attempts : Nat → GCSAttempt), cfg.is_keep = false →
        ∃ k, (cfg.call filename attempts).2 =
          .readFile filename :: .removeFile filename :: List.replicate k .post) ∧
      (∀ (config : Json) (min_confidence : ℚ) (is_full_result : Bool)
          (recognize_result : Json),
        (gcsv1p1beta1_service_client filename false config min_confidence is_full_result
          recognize_result).2 =
          [.readFile filename, .removeFile filename, .post]) := by
  intro f
  refine ⟨?_, ?_, ?_⟩
  · intro cfg attempts h
    exact ⟨(v2AttemptLoop cfg.min_confidence cfg.is_full_result attempts 0 cfg.retries).2,
      by rw [GoogleSpeechV2_call_snd, h]; rfl⟩
  · intro cfg attempts h
    exact ⟨(gcsAttemptLoop cfg.min_confidence cfg.is_full_result attempts 0 cfg.retries).2,
      by rw [GCSV1P1Beta1URL_call_snd, h]; rfl⟩
  · intro config m full d
    rfl

/-- Witness for C9 at concrete clients whose keep-source flag is false. -/
theorem delete_before_network_witness :
    (∃ k, (cfgV2ex.call "audio.flac" attV2AllFail).2 =
      .readFile "audio.flac" :: .removeFile "audio.flac" :: List.replicate k .post) ∧
    (∃ k, (cfgGcsEx.call "audio.flac" attGcsFailTwice).2 =
      .readFile "audio.flac" :: .removeFile "audio.flac" :: List.replicate k .post) ∧
    (gcsv1p1beta1_service_client "audio.flac" false (.obj []) 0 false exGcsConf).2 =
      [.readFile "audio.flac", .removeFile "audio.flac", .post] := by
  refine ⟨?_, ?_, ?_⟩
  · exact (delete_before_network "audio.flac").1 cfgV2ex attV2AllFail rfl
  · exact (delete_before_network "audio.flac").2.1 cfgGcsEx attGcsFailTwice rfl
  · exact (delete_before_network "audio.flac").2.2 (.obj []) 0 false exGcsConf

/-- C10: with the full-result flag false, `GoogleSpeechV2.call` never returns
the empty string — a line whose normalized transcript is empty is falsy under
the truthiness check, so the scan skips it and continues with the next
line. -/
theorem v2_never_empty_transcript :
    (∀ (cfg : GoogleSpeechV2) (filename : String) (attempts : Nat → V2Attempt)
        (t : String),
      cfg.is_full_result = false →
      (cfg.call filename attempts).1 = .ok (.transcript t) → t ≠ "") ∧
    (∀ (min_confidence : ℚ) (is_full_result : Bool) (d : Json)
        (rest : List (Option Json)),
      get_google_speech_v2_transcript min_confidence d = .ok (some "") →
      v2ScanLines min_confidence is_full_result (some d :: rest) =
        v2ScanLines min_confidence is_full_result rest) := by
  constructor
  · intro cfg f a t _ h
    rw [GoogleSpeechV2_call_fst] at h
    exact v2AttemptLoop_transcript_ne _ _ _ _ _ _ h
  · intro m full d rest hg
    exact v2ScanLines_cons_skip m full (some d) rest (by simp [v2LineSkipped, hg])

/-- Witness for C10: a successful call's transcript is non-empty, and a line
normalizing to the empty string is passed over by the scan. -/
theorem v2_never_empty_transcript_witness :
    ("Hello world" : String) ≠ "" ∧
    v2ScanLines 0 false [some exV2emptyTranscript] = v2ScanLines 0 false [] := by
  constructor
  · exact v2_never_empty_transcript.1 cfgV2ex "audio.flac" attV2FailTwice "Hello world"
      rfl rfl
  · exact v2_never_empty_transcript.2 0 false exV2emptyTranscript [] rfl
